import Mathlib

/-!
# Verification of the socket-io-client connection manager and automation bridge

Shallow embedding of `src-tauri/src/socket_client.rs` and the tool-dispatch layer of
`src-tauri/src/mcp_server.rs`.

Modelling conventions:
* `i64` connection ids become `Int` (the code performs no arithmetic on ids, so no
  wrap-around modelling is needed).
* `HashMap<i64, ConnectionState>` becomes an association list `List (Int × ConnectionState)`
  with the `entry/or_insert_with`, `get`, `get_mut` and `remove` access patterns of the
  source translated one-to-one; `HashSet<i64>` / `HashSet<String>` become duplicate-free
  lists with membership-guarded insertion and filter-based removal, which coincides with
  set semantics.
* Side effects that leave the manager (Tauri `app_handle.emit` notifications, SQLite
  writes through `crate::db`, and calls into the `rust_socketio` transport client) are
  collected in an `Effect` trace; results the environment supplies (DB query results,
  transport connect/emit/disconnect outcomes, `Utc::now` timestamps) are explicit
  parameters.
* The `db` persistence layer and the transport are external collaborators per the spec;
  their answers are inputs, their invocations are recorded effects.
-/

/-- Set-semantics insertion for `HashSet::insert`: no-op when the element is present. -/
def listSetInsert {α : Type} [DecidableEq α] (s : List α) (x : α) : List α :=
  if x ∈ s then s else x :: s

/-- Set-semantics removal for `HashSet::remove`: drops every occurrence. -/
def listSetRemove {α : Type} [DecidableEq α] (s : List α) (x : α) : List α :=
  s.filter (fun y => y ≠ x)

/-- A buffered event, mirroring `BufferedEvent` in `socket_client.rs`. -/
structure BufferedEvent where
  eventName : String
  payload : String
  timestamp : String
  direction : String
deriving DecidableEq, Repr

/-- The bounded ring of recent events, mirroring `EventBuffer`: a `VecDeque` whose front
is the oldest entry, plus the capacity. -/
structure EventBuffer where
  events : List BufferedEvent
  maxSize : Nat
deriving DecidableEq, Repr

def EventBuffer.new (maxSize : Nat) : EventBuffer :=
  { events := [], maxSize := maxSize }

/-- The `while self.events.len() > self.max_size { self.events.pop_front(); }` loop of
`EventBuffer::push`, as structural recursion on the deque. -/
def popFrontWhileOver (maxSize : Nat) : List BufferedEvent → List BufferedEvent
  | [] => []
  | x :: t =>
    if (x :: t).length > maxSize then popFrontWhileOver maxSize t else x :: t

/-- `EventBuffer::push`: append at the back, then evict from the front while over
capacity. -/
def EventBuffer.push (b : EventBuffer) (e : BufferedEvent) : EventBuffer :=
  { b with events := popFrontWhileOver b.maxSize (b.events ++ [e]) }

/-- `EventBuffer::list_recent`: clamp the limit to the current size and walk the deque
from the back (newest first), without mutating it. -/
def EventBuffer.listRecent (b : EventBuffer) (limit : Nat) : List BufferedEvent :=
  b.events.reverse.take (min limit b.events.length)

/-- Pushing a list of events one by one, oldest first. -/
def EventBuffer.pushAll (b : EventBuffer) (es : List BufferedEvent) : EventBuffer :=
  es.foldl EventBuffer.push b

/-- Per-connection session state, mirroring `ConnectionState`: the optional transport
handle (`Client` becomes an opaque `Nat` identity), the runtime listener set, the status
string and the bounded event ring. -/
structure ConnectionState where
  client : Option Nat
  listeningEvents : List String
  status : String
  eventBuffer : EventBuffer
deriving DecidableEq, Repr

/-- `ConnectionState::new`: no client, given listener set, status `"disconnected"`,
ring of capacity 100. -/
def ConnectionState.new (listeningEvents : List String) : ConnectionState :=
  { client := none, listeningEvents := listeningEvents,
    status := "disconnected", eventBuffer := EventBuffer.new 100 }

/-- `HashMap::get` on the association-list rendering of the session map. -/
def mapFind : List (Int × ConnectionState) → Int → Option ConnectionState
  | [], _ => none
  | (k, v) :: t, j => if k = j then some v else mapFind t j

/-- `HashMap::get_mut` followed by a mutation: rewrites the value at the key, no-op when
the key is absent. -/
def mapUpdate : List (Int × ConnectionState) → Int → (ConnectionState → ConnectionState) →
    List (Int × ConnectionState)
  | [], _, _ => []
  | (k, v) :: t, j, f => if k = j then (k, f v) :: t else (k, v) :: mapUpdate t j f

/-- `HashMap::entry(id).or_insert_with(dflt)` followed by a mutation: rewrites the value
in place when present, appends `(id, f dflt)` when absent. -/
def mapEntryModify : List (Int × ConnectionState) → Int → ConnectionState →
    (ConnectionState → ConnectionState) → List (Int × ConnectionState)
  | [], j, dflt, f => [(j, f dflt)]
  | (k, v) :: t, j, dflt, f =>
    if k = j then (k, f v) :: t else (k, v) :: mapEntryModify t j dflt f

/-- `HashMap::remove`: drops the entry and hands back the removed value. -/
def mapRemove (m : List (Int × ConnectionState)) (j : Int) :
    List (Int × ConnectionState) × Option ConnectionState :=
  (m.filter (fun p => p.1 ≠ j), mapFind m j)

/-- Whole-manager state, mirroring the four `Arc<Mutex<_>>` fields of `SocketManager`.
The claims treat operations as atomic against this state; interleavings a claim depends
on are surfaced as explicit observation parameters where noted. -/
structure SocketManager where
  connections : List (Int × ConnectionState)
  activeConnectionId : Option Int
  connecting : List Int
  connectedOnce : List Int
deriving DecidableEq, Repr

/-- Observable side effects leaving the manager: Tauri notifications (`app_handle.emit`
on the `socket:status` / `socket:error` / `socket:event` topics), SQLite writes through
`crate::db`, and calls into the transport client. -/
inductive Effect where
  | emitStatus (connectionId : Int) (status : String) (message : Option String)
  | emitError (connectionId : Int) (message : String)
  | emitEvent (connectionId : Int) (eventName payload timestamp direction : String)
  | dbAddEventHistory (connectionId : Int) (eventName payload timestamp direction : String)
  | dbAddEmitLog (connectionId : Int) (eventName payload : String)
  | transportEmit (eventName payload : String)
  | transportDisconnect
deriving DecidableEq, Repr

/-- `SocketManager::has_connected_before`. -/
def SocketManager.hasConnectedBefore (s : SocketManager) (connectionId : Int) : Bool :=
  decide (connectionId ∈ s.connectedOnce)

/-- `SocketManager::mark_connected`. -/
def SocketManager.markConnected (s : SocketManager) (connectionId : Int) : SocketManager :=
  { s with connectedOnce := listSetInsert s.connectedOnce connectionId }

/-- `SocketManager::has_connection`. -/
def SocketManager.hasConnection (s : SocketManager) (connectionId : Int) : Bool :=
  (mapFind s.connections connectionId).isSome

/-- `SocketManager::set_active_connection`. -/
def SocketManager.setActiveConnection (s : SocketManager) (connectionId : Int) : SocketManager :=
  { s with activeConnectionId := some connectionId }

/-- `SocketManager::clear_active_connection`. -/
def SocketManager.clearActiveConnection (s : SocketManager) : SocketManager :=
  { s with activeConnectionId := none }

/-- `SocketManager::set_client`: `entry/or_insert_with` then swap the handle; a replaced
old handle is disconnected after the lock is released (recorded as an effect). -/
def SocketManager.setClient (s : SocketManager) (connectionId : Int) (client : Option Nat) :
    SocketManager × List Effect :=
  let oldClient := (mapFind s.connections connectionId).bind (fun st => st.client)
  let conns := mapEntryModify s.connections connectionId (ConnectionState.new [])
    (fun st => { st with client := client })
  ({ s with connections := conns },
    match oldClient with
    | some _ => [Effect.transportDisconnect]
    | none => [])

/-- `SocketManager::set_listening_events`: `entry/or_insert_with`, clear, extend.
`HashSet::extend` deduplicates, rendered by folding the set-semantics insert. -/
def SocketManager.setListeningEvents (s : SocketManager) (connectionId : Int)
    (events : List String) : SocketManager :=
  let conns := mapEntryModify s.connections connectionId (ConnectionState.new [])
    (fun st => { st with listeningEvents := events.foldl listSetInsert [] })
  { s with connections := conns }

/-- `SocketManager::set_status`: rewrites the status of an existing session, no-op for
unknown ids. -/
def SocketManager.setStatus (s : SocketManager) (connectionId : Int) (status : String) :
    SocketManager :=
  let conns := mapUpdate s.connections connectionId (fun st => { st with status := status })
  { s with connections := conns }

/-- `SocketManager::get_status_for_connection`: `"disconnected"` for unknown ids. -/
def SocketManager.getStatusForConnection (s : SocketManager) (connectionId : Int) : String :=
  match mapFind s.connections connectionId with
  | some st => st.status
  | none => "disconnected"

/-- The optional live transport handle of a session:
`connections.get(&id).and_then(|state| state.client.clone())`. -/
def SocketManager.lookupClient (s : SocketManager) (connectionId : Int) : Option Nat :=
  (mapFind s.connections connectionId).bind (fun st => st.client)

/-- `SocketManager::record_event`: push into the in-memory ring of an existing session,
then best-effort persist to SQLite (a failed write is logged and swallowed, so the DB
call is just an effect). -/
def SocketManager.recordEvent (s : SocketManager) (connectionId : Int)
    (eventName payload direction timestamp : String) : SocketManager × List Effect :=
  let ev : BufferedEvent :=
    { eventName := eventName, payload := payload, timestamp := timestamp,
      direction := direction }
  let conns := mapUpdate s.connections connectionId
    (fun st => { st with eventBuffer := st.eventBuffer.push ev })
  ({ s with connections := conns },
    [Effect.dbAddEventHistory connectionId eventName payload timestamp direction])

/-- `SocketManager::emit_status`: set the status field, then notify the UI. -/
def SocketManager.emitStatusOp (s : SocketManager) (connectionId : Int) (status : String)
    (message : Option String) : SocketManager × List Effect :=
  (s.setStatus connectionId status, [Effect.emitStatus connectionId status message])

/-- `SocketManager::emit_event`: record an inbound event, then notify the UI. The
`Utc::now` timestamp is a parameter. -/
def SocketManager.emitEventOp (s : SocketManager) (connectionId : Int)
    (eventName payload ts : String) : SocketManager × List Effect :=
  let r := s.recordEvent connectionId eventName payload "in" ts
  (r.1, r.2 ++ [Effect.emitEvent connectionId eventName payload ts "in"])

/-- `SocketManager::emit_outgoing_event`: record an outbound event, then notify the UI. -/
def SocketManager.emitOutgoingEvent (s : SocketManager) (connectionId : Int)
    (eventName payload ts : String) : SocketManager × List Effect :=
  let r := s.recordEvent connectionId eventName payload "out" ts
  (r.1, r.2 ++ [Effect.emitEvent connectionId eventName payload ts "out"])

/-- `SocketManager::emit_message`. The transport `client.emit` outcome (`emitResult`) and
the `Utc::now` timestamp are environment parameters; the JSON-or-raw-string payload
normalization happens on the wire value only and does not touch manager state. -/
def SocketManager.emitMessage (s : SocketManager) (connectionId : Int)
    (eventName payload : String) (emitResult : Except String Unit) (ts : String) :
    Except String Unit × SocketManager × List Effect :=
  match s.lookupClient connectionId with
  | none => (Except.error "Not connected", s, [])
  | some _ =>
    match emitResult with
    | Except.error e => (Except.error e, s, [Effect.transportEmit eventName payload])
    | Except.ok _ =>
      let r := s.emitOutgoingEvent connectionId eventName payload ts
      (Except.ok (), r.1, Effect.transportEmit eventName payload :: r.2)

/-- `SocketManager::add_listener`: reject empty trimmed names, otherwise insert into the
runtime forwarding set, creating the session entry when absent. -/
def SocketManager.addListener (s : SocketManager) (connectionId : Int) (eventName : String) :
    Except String Unit × SocketManager :=
  let trimmed := eventName.trim
  if trimmed.isEmpty then
    (Except.error "Event name cannot be empty", s)
  else
    let conns := mapEntryModify s.connections connectionId (ConnectionState.new [])
      (fun st => { st with listeningEvents := listSetInsert st.listeningEvents trimmed })
    (Except.ok (), { s with connections := conns })

/-- `SocketManager::remove_listener`: drop from the forwarding set of an existing
session, no-op for unknown ids. -/
def SocketManager.removeListener (s : SocketManager) (connectionId : Int)
    (eventName : String) : SocketManager :=
  let conns := mapUpdate s.connections connectionId
    (fun st => { st with listeningEvents := listSetRemove st.listeningEvents eventName })
  { s with connections := conns }

/-- `SocketManager::list_buffered_events`. -/
def SocketManager.listBufferedEvents (s : SocketManager) (connectionId : Int)
    (limit : Nat) : List BufferedEvent :=
  match mapFind s.connections connectionId with
  | some st => st.eventBuffer.listRecent limit
  | none => []

/-- The text of `json!({ "connectionId": id }).to_string()`. -/
def connectPayload (connectionId : Int) : String :=
  "\x7b\"connectionId\":" ++ toString connectionId ++ "\x7d"

/-- The text of `json!({ "reason": reason }).to_string()`; the reason strings the code
passes ("manual", "mcp", "server") need no JSON escaping. -/
def reasonPayload (reason : String) : String :=
  "\x7b\"reason\":\"" ++ reason ++ "\"\x7d"

/-- The text of `json!({ "message": msg }).to_string()` for transport error messages
(modulo JSON string escaping, which no claim inspects). -/
def messagePayload (message : String) : String :=
  "\x7b\"message\":\"" ++ message ++ "\"\x7d"

/-- The tolerant-parsed `options` JSON document of a connection profile, reduced to the
fields `do_connect` extracts (`absent/wrong-type => None`, mirrored by `Option`). -/
structure OptionsDoc where
  reconnection : Option Bool
  websocketOnly : Bool
  autoSendOnConnect : Option Bool
  autoSendOnReconnect : Option Bool
deriving DecidableEq, Repr

/-- A row of the `connections` table as `do_connect` destructures it: url, namespace,
auth token, options document, and the two DB-level auto-send flags (columns 9 and 10). -/
structure ConnectProfile where
  url : String
  nsp : String
  authToken : Option String
  options : OptionsDoc
  autoOnConnect : Bool
  autoOnReconnect : Bool
deriving DecidableEq, Repr

/-- Lines 574-588 of `socket_client.rs`: auto-send flags default from the options
document (`unwrap_or(false)`), but the flags of a second profile lookup take priority
when that lookup yields a row. -/
def autoSendFlags (profile : ConnectProfile) (secondLookup : Option ConnectProfile) :
    Bool × Bool :=
  let fromOptions := (profile.options.autoSendOnConnect.getD false,
    profile.options.autoSendOnReconnect.getD false)
  match secondLookup with
  | some p => (p.autoOnConnect, p.autoOnReconnect)
  | none => fromOptions

/-- Environment of one `do_connect` run: the two `db::get_connection_by_id` answers, the
`db::list_connection_events` answer (rows are `(row_id, event_name, is_listening)`), the
outcome of `ClientBuilder::connect` (a fresh opaque handle on success), and the
`Utc::now` timestamp used on the failure path. -/
structure ConnectEnv where
  profileLookup : Except String (Option ConnectProfile)
  eventsLookup : Except String (List (Int × String × Bool))
  profileLookup2 : Option ConnectProfile
  connectResult : Except String Nat
  ts : String

/-- `do_connect`: profile lookup, listener seeding, teardown of any previous handle,
transport configuration (auth/reconnection/transport hints touch only the wire builder,
not manager state), `connecting` status, then the blocking transport connect; on success
install the handle and mark the id active, on failure surface the error. The
connect/close/error/any-event callbacks are registered here but fire later; the connect
callback is modelled by `SocketManager.onConnectCallback`. -/
def SocketManager.doConnect (s : SocketManager) (connectionId : Int) (env : ConnectEnv) :
    Except String Unit × SocketManager × List Effect :=
  match env.profileLookup with
  | Except.error e => (Except.error e, s, [])
  | Except.ok none => (Except.error "Connection not found", s, [])
  | Except.ok (some _profile) =>
    match env.eventsLookup with
    | Except.error e => (Except.error e, s, [])
    | Except.ok events =>
      let listening := (events.filter (fun t => t.2.2)).map (fun t => t.2.1)
      let s1 := s.setListeningEvents connectionId listening
      let r2 := s1.setClient connectionId none
      let r3 := r2.1.emitStatusOp connectionId "connecting" none
      match env.connectResult with
      | Except.ok client =>
        let r4 := r3.1.setClient connectionId (some client)
        let s5 := r4.1.setActiveConnection connectionId
        (Except.ok (), s5, r2.2 ++ r3.2 ++ r4.2)
      | Except.error msg =>
        let r4 := r3.1.emitStatusOp connectionId "error" (some msg)
        let r5 := r4.1.emitEventOp connectionId "connect_error" (messagePayload msg) env.ts
        (Except.error msg, r5.1,
          r2.2 ++ r3.2 ++ r4.2 ++ r5.2 ++ [Effect.emitError connectionId msg])

/-- `SocketManager::connect`: reject when the id is already in the connecting guard,
otherwise insert it, run `do_connect`, and remove it again whatever the outcome. -/
def SocketManager.connect (s : SocketManager) (connectionId : Int) (env : ConnectEnv) :
    Except String Unit × SocketManager × List Effect :=
  if connectionId ∈ s.connecting then
    (Except.error "Connection already in progress for this connection", s, [])
  else
    let s0 : SocketManager := { s with connecting := listSetInsert s.connecting connectionId }
    let r := s0.doConnect connectionId env
    (r.1, { r.2.1 with connecting := listSetRemove r.2.1.connecting connectionId }, r.2.2)

/-- `SocketManager::disconnect_inner`: clear the connecting guard for the id, atomically
remove the session, always publish a `disconnected` status notification, synthesize and
persist a `disconnect` inbound event only when a transport handle was present, and
finally call the transport's own disconnect (outcome supplied by the environment). -/
def SocketManager.disconnectInner (s : SocketManager) (connectionId : Int)
    (reason ts : String) (transportDisconnectResult : Except String Unit) :
    Except String Unit × SocketManager × List Effect :=
  let s1 : SocketManager := { s with connecting := listSetRemove s.connecting connectionId }
  let removed := mapRemove s1.connections connectionId
  let client := removed.2.bind (fun st => st.client)
  let s2 : SocketManager := { s1 with connections := removed.1 }
  let effStatus := [Effect.emitStatus connectionId "disconnected" none]
  match client with
  | some _ =>
    (match transportDisconnectResult with
     | Except.ok _ => Except.ok ()
     | Except.error e => Except.error e,
     s2,
     effStatus ++
       [Effect.dbAddEventHistory connectionId "disconnect" (reasonPayload reason) ts "in",
        Effect.emitEvent connectionId "disconnect" (reasonPayload reason) ts "in",
        Effect.transportDisconnect])
  | none => (Except.ok (), s2, effStatus)

/-- `SocketManager::disconnect` simply forwards to `disconnect_inner`. -/
def SocketManager.disconnect (s : SocketManager) (connectionId : Int) (reason ts : String)
    (transportDisconnectResult : Except String Unit) :
    Except String Unit × SocketManager × List Effect :=
  s.disconnectInner connectionId reason ts transportDisconnectResult

/-- The `Event::Connect` callback registered in `do_connect` (lines 590-626): bail out if
the session is gone, transition to `connected`, record a synthetic `connect` event, read
the connected-once set to pick the auto-send flag (`db_auto_reconnect` for a reconnect,
`db_auto_connect` for a first connect), then mark the id connected-once. The returned
`Bool` is `should_auto_send`, i.e. whether an auto-send batch gets scheduled. -/
def SocketManager.onConnectCallback (s : SocketManager) (connectionId : Int)
    (dbAutoConnect dbAutoReconnect : Bool) (ts : String) :
    SocketManager × List Effect × Bool :=
  if s.hasConnection connectionId = false then (s, [], false)
  else
    let r1 := s.emitStatusOp connectionId "connected" none
    let r2 := r1.1.emitEventOp connectionId "connect" (connectPayload connectionId) ts
    let wasConnectedBefore := r2.1.hasConnectedBefore connectionId
    let shouldAutoSend := if wasConnectedBefore then dbAutoReconnect else dbAutoConnect
    let s3 := r2.1.markConnected connectionId
    (s3, r1.2 ++ r2.2, shouldAutoSend)

/-- What one iteration of the `do_auto_send` loop did to a template. -/
inductive AutoSendAction where
  | emitted (eventName payload : String)
  | emitFailed (eventName payload err : String)
  | stopped
deriving DecidableEq, Repr

/-- The per-template loop of `SocketManager::do_auto_send` (lines 235-252). The loop runs
on a background thread while transport callbacks keep mutating the shared status field,
so the value `get_status_for_connection` observes at step `i` is supplied by the
environment as `statusAt i`; likewise `emitResAt i` is the transport outcome and `tsAt i`
the `Utc::now` stamp of the step's `emit_message`. The fixed 50 ms sleep has no state
effect. A non-`"connected"` observation breaks out of the loop (`stopped`); a failed
emit is logged and the loop continues; a successful emit is followed by
`db::add_emit_log`. -/
def SocketManager.doAutoSend (s : SocketManager) (connectionId : Int) :
    List (String × String) → (Nat → String) → (Nat → Except String Unit) →
    (Nat → String) → Nat → SocketManager × List Effect × List AutoSendAction
  | [], _, _, _, _ => (s, [], [])
  | (eventName, payload) :: rest, statusAt, emitResAt, tsAt, i =>
    if statusAt i ≠ "connected" then (s, [], [AutoSendAction.stopped])
    else
      match s.emitMessage connectionId eventName payload (emitResAt i) (tsAt i) with
      | (Except.ok _, s1, eff) =>
        let t := s1.doAutoSend connectionId rest statusAt emitResAt tsAt (i + 1)
        (t.1, eff ++ [Effect.dbAddEmitLog connectionId eventName payload] ++ t.2.1,
          AutoSendAction.emitted eventName payload :: t.2.2)
      | (Except.error e, s1, eff) =>
        let t := s1.doAutoSend connectionId rest statusAt emitResAt tsAt (i + 1)
        (t.1, eff ++ t.2.1, AutoSendAction.emitFailed eventName payload e :: t.2.2)

/-- `SocketManager::do_auto_send` including the initial `db::list_auto_send_messages`
fetch: a DB error or an empty template list ends the batch before any iteration. -/
def SocketManager.autoSendBatch (s : SocketManager) (connectionId : Int)
    (fetch : Except String (List (String × String))) (statusAt : Nat → String)
    (emitResAt : Nat → Except String Unit) (tsAt : Nat → String) :
    SocketManager × List Effect × List AutoSendAction :=
  match fetch with
  | Except.error _ => (s, [], [])
  | Except.ok msgs => s.doAutoSend connectionId msgs statusAt emitResAt tsAt 0

/-- Index of the first of `n` loop iterations, counting from absolute step `i`, whose
status pre-check observes something other than `"connected"`; `n` when none does. -/
def stopIndexFrom (statusAt : Nat → String) (i : Nat) : Nat → Nat
  | 0 => 0
  | n + 1 => if statusAt i ≠ "connected" then 0 else stopIndexFrom statusAt (i + 1) n + 1

/-- A JSON value, as far as the bridge's envelopes need one. -/
inductive Json where
  | null
  | bool (b : Bool)
  | num (n : Int)
  | str (s : String)
  | arr (items : List Json)
  | obj (fields : List (String × Json))

/-- First field of a JSON object with the given key, `none` for other shapes. -/
def Json.getField : Json → String → Option Json
  | Json.obj fields, key => (fields.find? (fun p => p.1 = key)).map (fun p => p.2)
  | _, _ => none

/-- `JsonRpcError` from `mcp_server.rs`. -/
structure JsonRpcError where
  code : Int
  message : String

/-- `JsonRpcResponse`: exactly one of `result` / `error` is populated by the two
constructors below (`skip_serializing_if` drops the `none` side on the wire). -/
structure JsonRpcResponse where
  jsonrpc : String
  id : Json
  result : Option Json
  error : Option JsonRpcError

/-- `JsonRpcResponse::success`. -/
def JsonRpcResponse.success (id : Json) (result : Json) : JsonRpcResponse :=
  { jsonrpc := "2.0", id := id, result := some result, error := none }

/-- `JsonRpcResponse::error`. -/
def JsonRpcResponse.mkError (id : Json) (code : Int) (message : String) : JsonRpcResponse :=
  { jsonrpc := "2.0", id := id, result := none,
    error := some { code := code, message := message } }

/-- The `tools/call` branch of `process_request` (lines 475-510 of `mcp_server.rs`).
`execResult` is what `execute_tool` returned for the named tool; `serializePretty`
stands for `serde_json::to_string_pretty`. A tool success is wrapped as a text content
block in a success envelope; a tool failure is wrapped as a text content block plus
`isError: true`, still in a success envelope; only a missing tool name yields a JSON-RPC
error (`-32602`). -/
def processToolsCall (id : Json) (toolName : Option String)
    (execResult : Except String Json) (serializePretty : Json → String) : JsonRpcResponse :=
  match toolName with
  | some _ =>
    match execResult with
    | Except.ok result =>
      JsonRpcResponse.success id (Json.obj
        [("content", Json.arr [Json.obj
          [("type", Json.str "text"), ("text", Json.str (serializePretty result))]])])
    | Except.error e =>
      JsonRpcResponse.success id (Json.obj
        [("content", Json.arr [Json.obj
          [("type", Json.str "text"), ("text", Json.str e)]]),
         ("isError", Json.bool true)])
  | none => JsonRpcResponse.mkError id (-32602) "Missing tool name"

/-- Modelled from the spec: `SocketManager::reset_connecting_flag` is called by the
bridge's connect tool (`mcp_server.rs` lines 255 and 269) but its definition is not
among the provided sources. Per the spec it "resets any stuck connecting-guard state
for safety" — an explicit reset that clears the ConnectingGuard; it takes no id, so the
whole set is cleared. -/
def SocketManager.resetConnectingFlag (s : SocketManager) : SocketManager :=
  { s with connecting := [] }

/-- The `connect` branch of `execute_tool` (lines 249-273 of `mcp_server.rs`), with the
concurrency of `tokio::time::timeout` around `spawn_blocking(connect)` made explicit:

* `timedOut = false`: the spawned `connect` ran to completion within 10 s; its result is
  inspected, and a completed-with-error attempt triggers a second guard reset.
* `timedOut = true`: the 10 s timer fired while the spawned `connect` was still in
  flight after its guard insertion (the timeout does not cancel the blocking task). The
  `?` on the timeout `map_err` then returns "Connection timeout" at once — between the
  timer firing and the return the tool performs no further guard action, so the state
  handed back carries the in-flight guard entry. Only the guard component of the
  mid-flight `connect` is modelled, which is all C9 speaks about; the rest of the state
  is the pre-attempt state. -/
def executeToolConnect (s : SocketManager) (connectionId : Int) (timedOut : Bool)
    (env : ConnectEnv) : Except String Json × SocketManager :=
  let s1 := s.resetConnectingFlag
  if timedOut then
    (Except.error "Connection timeout",
      { s1 with connecting := listSetInsert s1.connecting connectionId })
  else
    let r := s1.connect connectionId env
    match r.1 with
    | Except.ok _ =>
      (Except.ok (Json.obj [("ok", Json.bool true),
        ("message", Json.str "Connection initiated")]), r.2.1)
    | Except.error e => (Except.error e, r.2.1.resetConnectingFlag)

/-- An empty manager, as `SocketManager::new` builds it. -/
def mgr0 : SocketManager :=
  { connections := [], activeConnectionId := none, connecting := [], connectedOnce := [] }

/-- A session holding a live transport handle with status `"connected"`. -/
def connectedState : ConnectionState :=
  { client := some 1, listeningEvents := [], status := "connected",
    eventBuffer := EventBuffer.new 100 }

/-- A manager with one live session under id 1. -/
def mgr1 : SocketManager :=
  { connections := [(1, connectedState)], activeConnectionId := none,
    connecting := [], connectedOnce := [] }

/-- An options document with nothing set. -/
def options0 : OptionsDoc :=
  { reconnection := none, websocketOnly := false,
    autoSendOnConnect := none, autoSendOnReconnect := none }

/-- A minimal connection profile row. -/
def profile0 : ConnectProfile :=
  { url := "http://localhost:3000", nsp := "/", authToken := none,
    options := options0, autoOnConnect := false, autoOnReconnect := false }

/-- A connect environment in which every external call succeeds. -/
def envOk : ConnectEnv :=
  { profileLookup := Except.ok (some profile0), eventsLookup := Except.ok [],
    profileLookup2 := none, connectResult := Except.ok 1, ts := "t0" }

/-- A connect environment in which the transport dial fails. -/
def envFail : ConnectEnv :=
  { profileLookup := Except.ok (some profile0), eventsLookup := Except.ok [],
    profileLookup2 := none, connectResult := Except.error "dial error", ts := "t0" }

theorem listSetRemove_not_mem {α : Type} [DecidableEq α] (s : List α) (x : α) :
    x ∉ listSetRemove s x := by
  intro h
  have := List.of_mem_filter h
  simp at this

theorem mem_listSetInsert {α : Type} [DecidableEq α] (s : List α) (x : α) :
    x ∈ listSetInsert s x := by
  unfold listSetInsert
  split
  · assumption
  · exact List.mem_cons_self x s

theorem popFrontWhileOver_eq_drop (maxSize : Nat) (l : List BufferedEvent) :
    popFrontWhileOver maxSize l = l.drop (l.length - maxSize) := by
  induction l with
  | nil => simp [popFrontWhileOver]
  | cons x t ih =>
    unfold popFrontWhileOver
    split
    · rename_i h
      simp only [List.length_cons] at h
      have hlen : t.length + 1 - maxSize = (t.length - maxSize) + 1 := by omega
      simp only [List.length_cons, hlen, List.drop_succ_cons]
      exact ih
    · rename_i h
      simp only [List.length_cons] at h
      have hlen : t.length + 1 - maxSize = 0 := by omega
      simp [hlen]

theorem pushAll_maxSize (es : List BufferedEvent) :
    ∀ b : EventBuffer, (b.pushAll es).maxSize = b.maxSize := by
  induction es with
  | nil => intro b; rfl
  | cons e rest ih =>
    intro b
    have hstep : EventBuffer.pushAll b (e :: rest) = EventBuffer.pushAll (b.push e) rest := rfl
    rw [hstep, ih (b.push e)]
    rfl

theorem drop_ring_step (A rest : List BufferedEvent) (m : Nat) :
    ((A.drop (A.length - m)) ++ rest).drop (((A.drop (A.length - m)) ++ rest).length - m)
      = (A ++ rest).drop ((A ++ rest).length - m) := by
  rw [← List.drop_append_of_le_length (by omega), List.drop_drop]
  congr 1
  simp only [List.length_drop, List.length_append]
  omega

theorem pushAll_events (es : List BufferedEvent) :
    ∀ b : EventBuffer, b.events.length ≤ b.maxSize →
      (b.pushAll es).events = (b.events ++ es).drop ((b.events ++ es).length - b.maxSize) := by
  induction es with
  | nil =>
    intro b hb
    simp only [EventBuffer.pushAll, List.foldl_nil, List.append_nil]
    have h0 : b.events.length - b.maxSize = 0 := by omega
    simp [h0]
  | cons e rest ih =>
    intro b hb
    have hpush : (b.push e).events
        = (b.events ++ [e]).drop ((b.events ++ [e]).length - b.maxSize) := by
      simp [EventBuffer.push, popFrontWhileOver_eq_drop]
    have hmax : (b.push e).maxSize = b.maxSize := rfl
    have hlen : (b.push e).events.length ≤ (b.push e).maxSize := by
      rw [hmax, hpush, List.length_drop]
      omega
    have hstep : EventBuffer.pushAll b (e :: rest) = EventBuffer.pushAll (b.push e) rest := rfl
    rw [hstep, ih (b.push e) hlen, hmax, hpush, drop_ring_step]
    simp [List.append_assoc]

theorem mapFind_mapUpdate (m : List (Int × ConnectionState)) (k j : Int)
    (f : ConnectionState → ConnectionState) :
    mapFind (mapUpdate m k f) j
      = if k = j then (mapFind m j).map f else mapFind m j := by
  induction m with
  | nil => simp [mapUpdate, mapFind]
  | cons p t ih =>
    obtain ⟨a, v⟩ := p
    by_cases hak : a = k
    · subst hak
      by_cases haj : a = j
      · subst haj
        simp [mapUpdate, mapFind]
      · simp [mapUpdate, mapFind, haj]
    · by_cases haj : a = j
      · subst haj
        simp [mapUpdate, mapFind, hak, Ne.symm hak]
      · simp [mapUpdate, mapFind, hak, haj, ih]

theorem mapFind_mapEntryModify_self (m : List (Int × ConnectionState)) (k : Int)
    (dflt : ConnectionState) (f : ConnectionState → ConnectionState) :
    mapFind (mapEntryModify m k dflt f) k = some (f ((mapFind m k).getD dflt)) := by
  induction m with
  | nil => simp [mapEntryModify, mapFind]
  | cons p t ih =>
    obtain ⟨a, v⟩ := p
    by_cases hak : a = k
    · subst hak
      simp [mapEntryModify, mapFind]
    · simp [mapEntryModify, mapFind, hak, ih]

theorem mapFind_filter_self (m : List (Int × ConnectionState)) (j : Int) :
    mapFind (m.filter (fun p => p.1 ≠ j)) j = none := by
  induction m with
  | nil => rfl
  | cons p t ih =>
    obtain ⟨a, v⟩ := p
    rw [List.filter_cons]
    by_cases haj : a = j
    · subst haj
      rw [if_neg (by simp)]
      exact ih
    · rw [if_pos (by simp [haj])]
      simp only [mapFind, if_neg haj]
      exact ih

theorem find_none_keys (m : List (Int × ConnectionState)) (j : Int)
    (h : mapFind m j = none) : ∀ p ∈ m, p.1 ≠ j := by
  induction m with
  | nil => intro p hp; cases hp
  | cons q t ih =>
    obtain ⟨a, v⟩ := q
    simp only [mapFind] at h
    by_cases haj : a = j
    · rw [if_pos haj] at h; cases h
    · rw [if_neg haj] at h
      intro p hp
      rcases List.mem_cons.mp hp with rfl | hp2
      · exact haj
      · exact ih h p hp2

theorem filter_eq_self_of_find_none (m : List (Int × ConnectionState)) (j : Int)
    (h : mapFind m j = none) : m.filter (fun p => p.1 ≠ j) = m := by
  rw [List.filter_eq_self]
  intro p hp
  simpa using find_none_keys m j h p hp

theorem recordEvent_lookupClient (s : SocketManager) (connectionId j : Int)
    (eventName payload direction ts : String) :
    (s.recordEvent connectionId eventName payload direction ts).1.lookupClient j
      = s.lookupClient j := by
  simp only [SocketManager.recordEvent, SocketManager.lookupClient, mapFind_mapUpdate]
  by_cases h : connectionId = j
  · subst h
    simp only [if_pos rfl]
    cases mapFind s.connections connectionId <;> rfl
  · rw [if_neg h]

theorem emitMessage_lookupClient (s : SocketManager) (connectionId j : Int)
    (eventName payload : String) (res : Except String Unit) (ts : String) :
    (s.emitMessage connectionId eventName payload res ts).2.1.lookupClient j
      = s.lookupClient j := by
  unfold SocketManager.emitMessage
  cases h : s.lookupClient connectionId with
  | none => rfl
  | some c =>
    cases res with
    | error e => rfl
    | ok u =>
      simp only [SocketManager.emitOutgoingEvent]
      exact recordEvent_lookupClient s connectionId j eventName payload "out" ts

theorem doConnect_frame (s : SocketManager) (connectionId : Int) (env : ConnectEnv) :
    (s.doConnect connectionId env).2.1.connectedOnce = s.connectedOnce ∧
    (s.doConnect connectionId env).2.1.connecting = s.connecting ∧
    ((s.doConnect connectionId env).1 = Except.ok () →
      (s.doConnect connectionId env).2.1.activeConnectionId = some connectionId) ∧
    (∀ e, (s.doConnect connectionId env).1 = Except.error e →
      (s.doConnect connectionId env).2.1.activeConnectionId = s.activeConnectionId) := by
  cases hp : env.profileLookup with
  | error e => simp [SocketManager.doConnect, hp]
  | ok po =>
    cases po with
    | none => simp [SocketManager.doConnect, hp]
    | some p =>
      cases he : env.eventsLookup with
      | error e => simp [SocketManager.doConnect, hp, he]
      | ok evs =>
        cases hc : env.connectResult with
        | ok client =>
          simp [SocketManager.doConnect, hp, he, hc, SocketManager.setListeningEvents,
            SocketManager.setClient, SocketManager.emitStatusOp, SocketManager.setStatus,
            SocketManager.setActiveConnection]
        | error msg =>
          simp [SocketManager.doConnect, hp, he, hc, SocketManager.setListeningEvents,
            SocketManager.setClient, SocketManager.emitStatusOp, SocketManager.setStatus,
            SocketManager.emitEventOp, SocketManager.recordEvent]

/-- C2: for the capacity-100 event buffer, pushing `n` events leaves exactly the last
`min n 100` of them in arrival order (strict FIFO eviction of the oldest on overflow),
and `list_recent limit` returns the `min limit size` most recent entries newest first;
`list_recent` is a pure function of the buffer, hence non-destructive. -/
theorem event_buffer_fifo_spec (es : List BufferedEvent) (limit : Nat) :
    ((EventBuffer.new 100).pushAll es).events = es.drop (es.length - 100) ∧
    ((EventBuffer.new 100).pushAll es).events.length = min es.length 100 ∧
    ((EventBuffer.new 100).pushAll es).listRecent limit
        = ((EventBuffer.new 100).pushAll es).events.reverse.take limit ∧
    (((EventBuffer.new 100).pushAll es).listRecent limit).length
        = min limit ((EventBuffer.new 100).pushAll es).events.length := by
  have h1 : ((EventBuffer.new 100).pushAll es).events = es.drop (es.length - 100) := by
    have h := pushAll_events es (EventBuffer.new 100) (by simp [EventBuffer.new])
    simpa [EventBuffer.new] using h
  have hlen : ((EventBuffer.new 100).pushAll es).events.length = min es.length 100 := by
    rw [h1, List.length_drop]
    omega
  refine ⟨h1, hlen, ?_, ?_⟩
  · unfold EventBuffer.listRecent
    rw [List.take_eq_take]
    simp only [List.length_reverse]
    omega
  · unfold EventBuffer.listRecent
    simp only [List.length_take, List.length_reverse]
    omega

/-- C1: `connect(id)` rejects with the `AlreadyConnecting` error and leaves the whole
manager state (and effect trace) unchanged when `id` is already in the connecting
guard; otherwise it runs the attempt on a state whose guard holds `id`, and after the
attempt — success or failure — `id` is no longer in the guard. -/
theorem connect_guard_spec (s : SocketManager) (connectionId : Int) (env : ConnectEnv) :
    (connectionId ∈ s.connecting →
      s.connect connectionId env
        = (Except.error "Connection already in progress for this connection", s, [])) ∧
    (connectionId ∉ s.connecting →
      connectionId ∈
        ({ s with connecting := listSetInsert s.connecting connectionId }
          : SocketManager).connecting ∧
      s.connect connectionId env
        = (let r := SocketManager.doConnect
              { s with connecting := listSetInsert s.connecting connectionId }
              connectionId env
           (r.1, { r.2.1 with connecting := listSetRemove r.2.1.connecting connectionId },
             r.2.2)) ∧
      connectionId ∉ (s.connect connectionId env).2.1.connecting) := by
  constructor
  · intro h
    simp [SocketManager.connect, h]
  · intro h
    refine ⟨mem_listSetInsert s.connecting connectionId, ?_, ?_⟩
    · simp [SocketManager.connect, h]
    · simp only [SocketManager.connect, if_neg h]
      exact listSetRemove_not_mem _ connectionId

/-- Witness for C1 at a concrete manager and environment. -/
theorem connect_guard_spec_witness :
    (1 : Int) ∉ mgr0.connecting ∧ (1 : Int) ∉ (mgr0.connect 1 envOk).2.1.connecting :=
  ⟨by decide, ((connect_guard_spec mgr0 1 envOk).2 (by decide)).2.2⟩

/-- C3: `emit_message` on an id without a live transport handle (no session, or a
session whose handle is absent) fails with `Not connected`, leaves the state untouched
and produces no effect at all (nothing buffered, nothing persisted); an emit on a live
handle whose transport call succeeds returns ok, records exactly one outbound event —
one ring push, one DB history row, one UI notification — and touches nothing else. -/
theorem emit_not_connected_spec (s : SocketManager) (connectionId : Int)
    (eventName payload ts : String) (emitResult : Except String Unit) :
    (s.lookupClient connectionId = none →
      s.emitMessage connectionId eventName payload emitResult ts
        = (Except.error "Not connected", s, [])) ∧
    (∀ c, s.lookupClient connectionId = some c → emitResult = Except.ok () →
      (s.emitMessage connectionId eventName payload emitResult ts).1 = Except.ok () ∧
      (s.emitMessage connectionId eventName payload emitResult ts).2.2
        = [Effect.transportEmit eventName payload,
           Effect.dbAddEventHistory connectionId eventName payload ts "out",
           Effect.emitEvent connectionId eventName payload ts "out"] ∧
      mapFind (s.emitMessage connectionId eventName payload emitResult ts).2.1.connections
          connectionId
        = (mapFind s.connections connectionId).map
            (fun st => { st with eventBuffer :=
              st.eventBuffer.push ⟨eventName, payload, ts, "out"⟩ }) ∧
      (s.emitMessage connectionId eventName payload emitResult ts).2.1.activeConnectionId
          = s.activeConnectionId ∧
      (s.emitMessage connectionId eventName payload emitResult ts).2.1.connecting
          = s.connecting ∧
      (s.emitMessage connectionId eventName payload emitResult ts).2.1.connectedOnce
          = s.connectedOnce) := by
  constructor
  · intro h
    simp [SocketManager.emitMessage, h]
  · intro c hc hr
    subst hr
    refine ⟨?_, ?_, ?_, ?_, ?_, ?_⟩ <;>
      simp [SocketManager.emitMessage, hc, SocketManager.emitOutgoingEvent,
        SocketManager.recordEvent, mapFind_mapUpdate]

/-- Witness for C3 on the empty manager: no session, so `emit` fails and records
nothing. -/
theorem emit_not_connected_spec_witness :
    mgr0.lookupClient 1 = none ∧
    mgr0.emitMessage 1 "ping" "p" (Except.ok ()) "t1"
      = (Except.error "Not connected", mgr0, []) :=
  ⟨rfl, (emit_not_connected_spec mgr0 1 "ping" "p" "t1" (Except.ok ())).1 rfl⟩

/-- C4 counterexample: on the empty manager (id 1 never connected), `disconnect`
publishes a `socket:status` "disconnected" notification, refuting the claim that a
disconnect of a never-connected id publishes no notification. -/
theorem disconnect_unknown_counterexample :
    mapFind mgr0.connections 1 = none ∧
    (mgr0.disconnectInner 1 "manual" "t0" (Except.ok ())).2.2
      = [Effect.emitStatus 1 "disconnected" none] ∧
    (mgr0.disconnectInner 1 "manual" "t0" (Except.ok ())).2.2 ≠ [] := by
  refine ⟨rfl, by decide, by decide⟩

/-- C4 (amended): for a never-connected id, `status(id)` is `"disconnected"` and
`disconnect(id, reason)` returns success, synthesizes no `disconnect` event and writes
nothing to the DB, and leaves all state unchanged except for clearing any
connecting-guard entry for the id — but it does publish one `"disconnected"` status
notification (the publish in `disconnect_inner` is unconditional). -/
theorem disconnect_unknown_amended_spec (s : SocketManager) (connectionId : Int)
    (reason ts : String) (d : Except String Unit)
    (h : mapFind s.connections connectionId = none) :
    s.getStatusForConnection connectionId = "disconnected" ∧
    (s.disconnectInner connectionId reason ts d).1 = Except.ok () ∧
    (s.disconnectInner connectionId reason ts d).2.1
      = { s with connecting := listSetRemove s.connecting connectionId } ∧
    (s.disconnectInner connectionId reason ts d).2.2
      = [Effect.emitStatus connectionId "disconnected" none] := by
  have hfilter := filter_eq_self_of_find_none s.connections connectionId h
  simp only [ne_eq, decide_not] at hfilter
  refine ⟨?_, ?_, ?_, ?_⟩
  · simp [SocketManager.getStatusForConnection, h]
  · simp [SocketManager.disconnectInner, mapRemove, h]
  · simp [SocketManager.disconnectInner, mapRemove, h, hfilter, -List.filter_eq_self]
  · simp [SocketManager.disconnectInner, mapRemove, h]

/-- Witness for C4 (amended) on the empty manager. -/
theorem disconnect_unknown_amended_spec_witness :
    mapFind mgr0.connections 1 = none ∧
    (mgr0.disconnectInner 1 "manual" "t0" (Except.ok ())).1 = Except.ok () ∧
    (mgr0.disconnectInner 1 "manual" "t0" (Except.ok ())).2.1
      = { mgr0 with connecting := listSetRemove mgr0.connecting 1 } ∧
    (mgr0.disconnectInner 1 "manual" "t0" (Except.ok ())).2.2
      = [Effect.emitStatus 1 "disconnected" none] :=
  ⟨rfl, ((disconnect_unknown_amended_spec mgr0 1 "manual" "t0" (Except.ok ())) rfl).2.1,
    ((disconnect_unknown_amended_spec mgr0 1 "manual" "t0" (Except.ok ())) rfl).2.2.1,
    ((disconnect_unknown_amended_spec mgr0 1 "manual" "t0" (Except.ok ())) rfl).2.2.2⟩

/-- C5: when the connect callback fires for a live session it picks the
"on reconnect" flag exactly when the id is already in the connected-once set and the
"on connect" flag otherwise, and afterwards the id is in the set; no other manager
operation — disconnect included — ever changes the connected-once set, so the choice
survives disconnect/reconnect cycles (the set lives only in process memory, so it is
cleared only by a restart). -/
theorem connected_once_reconnect_spec (s : SocketManager) (connectionId j : Int)
    (dbAutoConnect dbAutoReconnect : Bool) (ts reason ts2 eventName payload : String)
    (d emitResult : Except String Unit) (env : ConnectEnv) :
    (s.hasConnection connectionId = true →
      (s.onConnectCallback connectionId dbAutoConnect dbAutoReconnect ts).2.2
        = (if connectionId ∈ s.connectedOnce then dbAutoReconnect else dbAutoConnect)) ∧
    (s.hasConnection connectionId = true →
      connectionId ∈
        (s.onConnectCallback connectionId dbAutoConnect dbAutoReconnect ts).1.connectedOnce) ∧
    ((s.disconnectInner j reason ts2 d).2.1.connectedOnce = s.connectedOnce) ∧
    ((s.connect j env).2.1.connectedOnce = s.connectedOnce) ∧
    ((s.emitMessage j eventName payload emitResult ts2).2.1.connectedOnce
        = s.connectedOnce) ∧
    ((s.addListener j eventName).2.connectedOnce = s.connectedOnce) ∧
    ((s.removeListener j eventName).connectedOnce = s.connectedOnce) ∧
    ((s.setActiveConnection j).connectedOnce = s.connectedOnce) ∧
    (s.clearActiveConnection.connectedOnce = s.connectedOnce) := by
  refine ⟨?_, ?_, ?_, ?_, ?_, ?_, ?_, rfl, rfl⟩
  · intro h
    simp [SocketManager.onConnectCallback, h, SocketManager.emitStatusOp,
      SocketManager.setStatus, SocketManager.emitEventOp, SocketManager.recordEvent,
      SocketManager.hasConnectedBefore, SocketManager.markConnected]
  · intro h
    simp only [SocketManager.onConnectCallback, h, Bool.true_eq_false, if_false,
      SocketManager.emitStatusOp, SocketManager.setStatus, SocketManager.emitEventOp,
      SocketManager.recordEvent, SocketManager.markConnected]
    exact mem_listSetInsert _ connectionId
  · cases hcl : (mapFind s.connections j).bind (fun st => st.client) with
    | none => simp [SocketManager.disconnectInner, mapRemove, hcl]
    | some c =>
      cases d with
      | ok u => simp [SocketManager.disconnectInner, mapRemove, hcl]
      | error e => simp [SocketManager.disconnectInner, mapRemove, hcl]
  · by_cases h : j ∈ s.connecting
    · simp [SocketManager.connect, h]
    · simp only [SocketManager.connect, if_neg h]
      exact (doConnect_frame _ j env).1
  · cases hcl : s.lookupClient j with
    | none => simp [SocketManager.emitMessage, hcl]
    | some c =>
      cases emitResult with
      | error e => simp [SocketManager.emitMessage, hcl]
      | ok u =>
        simp [SocketManager.emitMessage, hcl, SocketManager.emitOutgoingEvent,
          SocketManager.recordEvent]
  · by_cases h : eventName.trim.isEmpty
    · simp [SocketManager.addListener, h]
    · simp [SocketManager.addListener, h]
  · rfl

/-- Witness for C5: a live session that has connected before picks the reconnect flag
and stays in the connected-once set. -/
theorem connected_once_reconnect_spec_witness :
    SocketManager.hasConnection
      { mgr1 with connectedOnce := [1] } 1 = true ∧
    (SocketManager.onConnectCallback
        { mgr1 with connectedOnce := [1] } 1 false true "t3").2.2
      = (if (1 : Int) ∈ ({ mgr1 with connectedOnce := [1] } : SocketManager).connectedOnce
         then true else false) ∧
    (1 : Int) ∈ (SocketManager.onConnectCallback
        { mgr1 with connectedOnce := [1] } 1 false true "t3").1.connectedOnce :=
  ⟨by decide,
    (connected_once_reconnect_spec { mgr1 with connectedOnce := [1] } 1 1 false true
      "t3" "r" "t4" "e" "p" (Except.ok ()) (Except.ok ()) envOk).1 (by decide),
    ((connected_once_reconnect_spec { mgr1 with connectedOnce := [1] } 1 1 false true
      "t3" "r" "t4" "e" "p" (Except.ok ()) (Except.ok ()) envOk).2.1 (by decide))⟩

/-- `String.trim` evaluated on the concrete listener name used by the witnesses (the
well-founded recursion in `Substring.takeWhileAux` blocks kernel reduction, so the
evaluation is done through the equation lemmas). -/
theorem trim_foo : "foo".trim = "foo" := by
  simp only [String.trim, Substring.trim, Substring.trimLeft, Substring.trimRight,
    String.toSubstring]
  rw [Substring.takeWhileAux, dif_pos (by decide), if_neg (by decide)]
  rw [Substring.takeRightWhileAux, dif_pos (by decide)]
  simp only []
  rw [if_pos (by decide)]
  decide

theorem mapFind_filter_self_decide (m : List (Int × ConnectionState)) (j : Int) :
    mapFind (List.filter (fun p => !decide (p.1 = j)) m) j = none := by
  simpa using mapFind_filter_self m j

/-- C7 counterexample: on the empty manager, `add_listener(1, "foo")` creates a session
map entry for id 1 even though 1 was never connected (`entry/or_insert_with` in
`add_listener`), refuting both the session-map iff-invariant and the claim that no
operation other than connect creates a session-map entry. -/
theorem session_map_counterexample :
    mgr0.connections = [] ∧
    (1 : Int) ∉ mgr0.connectedOnce ∧
    (mgr0.addListener 1 "foo").1 = Except.ok () ∧
    SocketManager.hasConnection (mgr0.addListener 1 "foo").2 1 = true := by
  have hfe : "foo".isEmpty = false := by decide
  refine ⟨rfl, by decide, ?_, ?_⟩ <;>
    simp [SocketManager.addListener, trim_foo, hfe, SocketManager.hasConnection,
      mapEntryModify, mapFind, mgr0]

/-- C7 (amended): disconnect removes the session entry entirely, and session entries are
created by connect and by `add_listener` (whose listener edits may precede a connect);
the other operations — remove_listener, emit, set/clear-active — never create one. -/
theorem session_map_amended_spec (s : SocketManager) (connectionId j : Int)
    (eventName payload reason ts : String) (d res : Except String Unit)
    (hname : eventName.trim.isEmpty = false) :
    SocketManager.hasConnection (s.addListener connectionId eventName).2 connectionId
        = true ∧
    mapFind (s.disconnectInner connectionId reason ts d).2.1.connections connectionId
        = none ∧
    SocketManager.hasConnection (s.removeListener connectionId eventName) j
        = s.hasConnection j ∧
    SocketManager.hasConnection (s.emitMessage connectionId eventName payload res ts).2.1 j
        = s.hasConnection j ∧
    (s.setActiveConnection connectionId).connections = s.connections ∧
    s.clearActiveConnection.connections = s.connections := by
  refine ⟨?_, ?_, ?_, ?_, rfl, rfl⟩
  · simp [SocketManager.addListener, hname, SocketManager.hasConnection,
      mapFind_mapEntryModify_self]
  · cases hcl : (mapFind s.connections connectionId).bind (fun st => st.client) with
    | none =>
      simp [SocketManager.disconnectInner, mapRemove, hcl, mapFind_filter_self_decide]
    | some c =>
      cases d with
      | ok u =>
        simp [SocketManager.disconnectInner, mapRemove, hcl, mapFind_filter_self_decide]
      | error e =>
        simp [SocketManager.disconnectInner, mapRemove, hcl, mapFind_filter_self_decide]
  · simp only [SocketManager.removeListener, SocketManager.hasConnection,
      mapFind_mapUpdate]
    by_cases h : connectionId = j
    · subst h
      rw [if_pos rfl]
      cases mapFind s.connections connectionId <;> rfl
    · rw [if_neg h]
  · cases hcl : s.lookupClient connectionId with
    | none => simp [SocketManager.emitMessage, hcl]
    | some c =>
      cases res with
      | error e => simp [SocketManager.emitMessage, hcl]
      | ok u =>
        simp only [SocketManager.emitMessage, hcl, SocketManager.emitOutgoingEvent,
          SocketManager.recordEvent, SocketManager.hasConnection, mapFind_mapUpdate]
        by_cases h : connectionId = j
        · subst h
          rw [if_pos rfl]
          cases mapFind s.connections connectionId <;> rfl
        · rw [if_neg h]

/-- Witness for C7 (amended) with a nonempty listener name on the empty manager. -/
theorem session_map_amended_spec_witness :
    ("foo".trim.isEmpty = false) ∧
    SocketManager.hasConnection (mgr0.addListener 1 "foo").2 1 = true ∧
    mapFind (mgr0.disconnectInner 1 "r" "t" (Except.ok ())).2.1.connections 1 = none :=
  ⟨by rw [trim_foo]; decide,
    (session_map_amended_spec mgr0 1 1 "foo" "p" "r" "t" (Except.ok ()) (Except.ok ())
      (by rw [trim_foo]; decide)).1,
    (session_map_amended_spec mgr0 1 1 "foo" "p" "r" "t" (Except.ok ()) (Except.ok ())
      (by rw [trim_foo]; decide)).2.1⟩

theorem doAutoSend_cons_stop (s : SocketManager) (connectionId : Int)
    (name payload : String) (rest : List (String × String)) (statusAt : Nat → String)
    (emitResAt : Nat → Except String Unit) (tsAt : Nat → String) (i : Nat)
    (hst : statusAt i ≠ "connected") :
    s.doAutoSend connectionId ((name, payload) :: rest) statusAt emitResAt tsAt i
      = (s, [], [AutoSendAction.stopped]) := by
  rw [SocketManager.doAutoSend.eq_def]
  simp only []
  rw [if_pos hst]

theorem doAutoSend_cons_ok (s : SocketManager) (connectionId : Int)
    (name payload : String) (rest : List (String × String)) (statusAt : Nat → String)
    (emitResAt : Nat → Except String Unit) (tsAt : Nat → String) (i : Nat) (c : Nat)
    (hst : statusAt i = "connected") (h : s.lookupClient connectionId = some c)
    (hr : emitResAt i = Except.ok ()) :
    (s.doAutoSend connectionId ((name, payload) :: rest) statusAt emitResAt tsAt i).2.2
      = AutoSendAction.emitted name payload ::
        ((s.emitOutgoingEvent connectionId name payload (tsAt i)).1.doAutoSend
          connectionId rest statusAt emitResAt tsAt (i + 1)).2.2 := by
  rw [SocketManager.doAutoSend.eq_def]
  simp only []
  rw [if_neg (by simp [hst])]
  simp only [SocketManager.emitMessage, h, hr]

theorem doAutoSend_cons_err (s : SocketManager) (connectionId : Int)
    (name payload : String) (rest : List (String × String)) (statusAt : Nat → String)
    (emitResAt : Nat → Except String Unit) (tsAt : Nat → String) (i : Nat) (c : Nat)
    (e : String) (hst : statusAt i = "connected")
    (h : s.lookupClient connectionId = some c) (hr : emitResAt i = Except.error e) :
    (s.doAutoSend connectionId ((name, payload) :: rest) statusAt emitResAt tsAt i).2.2
      = AutoSendAction.emitFailed name payload e ::
        (s.doAutoSend connectionId rest statusAt emitResAt tsAt (i + 1)).2.2 := by
  rw [SocketManager.doAutoSend.eq_def]
  simp only []
  rw [if_neg (by simp [hst])]
  simp only [SocketManager.emitMessage, h, hr]

theorem emitOutgoingEvent_lookupClient (s : SocketManager) (connectionId j : Int)
    (name payload ts : String) :
    (s.emitOutgoingEvent connectionId name payload ts).1.lookupClient j
      = s.lookupClient j := by
  simp only [SocketManager.emitOutgoingEvent]
  exact recordEvent_lookupClient s connectionId j name payload "out" ts

theorem doAutoSend_actions (connectionId : Int) (c : Nat) (statusAt : Nat → String)
    (emitResAt : Nat → Except String Unit) (tsAt : Nat → String) :
    ∀ (msgs : List (String × String)) (i : Nat) (s : SocketManager),
      s.lookupClient connectionId = some c →
      (s.doAutoSend connectionId msgs statusAt emitResAt tsAt i).2.2
        = ((msgs.take (stopIndexFrom statusAt i msgs.length)).enumFrom i).map
            (fun p => match emitResAt p.1 with
              | Except.ok _ => AutoSendAction.emitted p.2.1 p.2.2
              | Except.error e => AutoSendAction.emitFailed p.2.1 p.2.2 e)
          ++ (if stopIndexFrom statusAt i msgs.length < msgs.length
              then [AutoSendAction.stopped] else []) := by
  intro msgs
  induction msgs with
  | nil =>
    intro i s h
    simp [SocketManager.doAutoSend, stopIndexFrom]
  | cons m rest ih =>
    intro i s h
    obtain ⟨name, payload⟩ := m
    by_cases hst : statusAt i = "connected"
    · have hk : stopIndexFrom statusAt i ((name, payload) :: rest).length
          = stopIndexFrom statusAt (i + 1) rest.length + 1 := by
        simp [stopIndexFrom, hst]
      cases hr : emitResAt i with
      | ok u =>
        have h1 : (s.emitOutgoingEvent connectionId name payload (tsAt i)).1.lookupClient
            connectionId = some c := by
          rw [emitOutgoingEvent_lookupClient]
          exact h
        rw [doAutoSend_cons_ok s connectionId name payload rest statusAt emitResAt tsAt
          i c hst h (by cases u; exact hr)]
        rw [ih (i + 1) _ h1, hk]
        simp [List.take_succ_cons, List.enumFrom, hr, Nat.add_lt_add_iff_right]
      | error e =>
        rw [doAutoSend_cons_err s connectionId name payload rest statusAt emitResAt tsAt
          i c e hst h hr]
        rw [ih (i + 1) s h, hk]
        simp [List.take_succ_cons, List.enumFrom, hr, Nat.add_lt_add_iff_right]
    · rw [doAutoSend_cons_stop s connectionId name payload rest statusAt emitResAt tsAt
        i hst]
      simp [stopIndexFrom, hst]

/-- C6: for a session with a live handle, the auto-send batch walks the templates in
order; before each emit the status pre-check is consulted, and the batch stops for good
at the first step whose pre-check observes anything but `"connected"` — every earlier
template was attempted in order (emitted when the transport accepted it, a logged
failure otherwise, which does not stop the batch) and no later template is touched. -/
theorem auto_send_batch_spec (s : SocketManager) (connectionId : Int) (c : Nat)
    (msgs : List (String × String)) (statusAt : Nat → String)
    (emitResAt : Nat → Except String Unit) (tsAt : Nat → String)
    (h : s.lookupClient connectionId = some c) :
    (s.doAutoSend connectionId msgs statusAt emitResAt tsAt 0).2.2
      = ((msgs.take (stopIndexFrom statusAt 0 msgs.length)).enumFrom 0).map
          (fun p => match emitResAt p.1 with
            | Except.ok _ => AutoSendAction.emitted p.2.1 p.2.2
            | Except.error e => AutoSendAction.emitFailed p.2.1 p.2.2 e)
        ++ (if stopIndexFrom statusAt 0 msgs.length < msgs.length
            then [AutoSendAction.stopped] else []) :=
  doAutoSend_actions connectionId c statusAt emitResAt tsAt msgs 0 s h

/-- Witness for C6: three templates on a live session whose status drops before the
third pre-check — templates 1 and 2 fire, template 3 is never sent. -/
theorem auto_send_batch_spec_witness :
    mgr1.lookupClient 1 = some 1 ∧
    (mgr1.doAutoSend 1 [("a", "1"), ("b", "2"), ("c", "3")]
        (fun i => if i < 2 then "connected" else "error")
        (fun _ => Except.ok ()) (fun _ => "t") 0).2.2
      = ([("a", "1"), ("b", "2"), ("c", "3")].take
            (stopIndexFrom (fun i => if i < 2 then "connected" else "error") 0 3)
          |>.enumFrom 0).map
          (fun p => match (fun _ : Nat => Except.ok ()) p.1 with
            | Except.ok _ => AutoSendAction.emitted p.2.1 p.2.2
            | Except.error e => AutoSendAction.emitFailed p.2.1 p.2.2 e)
        ++ (if stopIndexFrom (fun i => if i < 2 then "connected" else "error") 0 3 < 3
            then [AutoSendAction.stopped] else []) :=
  ⟨rfl, auto_send_batch_spec mgr1 1 1 [("a", "1"), ("b", "2"), ("c", "3")]
    (fun i => if i < 2 then "connected" else "error")
    (fun _ => Except.ok ()) (fun _ => "t") rfl⟩

/-- C8: a `tools/call` whose named tool executed and reported a failure is answered with
a *successful* JSON-RPC envelope — no top-level `error` member — whose result carries
`isError: true` and the error text as a text content block; a tool success is answered
with a successful envelope wrapping the serialized result as a text content block and
no `isError` member. -/
theorem tools_call_envelope_spec (id : Json) (name e : String) (r : Json)
    (serializePretty : Json → String) :
    (processToolsCall id (some name) (Except.error e) serializePretty).error = none ∧
    ((processToolsCall id (some name) (Except.error e) serializePretty).result.bind
        (fun v => v.getField "isError")) = some (Json.bool true) ∧
    ((processToolsCall id (some name) (Except.error e) serializePretty).result.bind
        (fun v => v.getField "content"))
      = some (Json.arr [Json.obj [("type", Json.str "text"), ("text", Json.str e)]]) ∧
    (processToolsCall id (some name) (Except.ok r) serializePretty).error = none ∧
    ((processToolsCall id (some name) (Except.ok r) serializePretty).result.bind
        (fun v => v.getField "isError")) = none ∧
    ((processToolsCall id (some name) (Except.ok r) serializePretty).result.bind
        (fun v => v.getField "content"))
      = some (Json.arr [Json.obj [("type", Json.str "text"),
          ("text", Json.str (serializePretty r))]]) := by
  refine ⟨rfl, ?_, ?_, rfl, ?_, ?_⟩ <;>
    simp [processToolsCall, JsonRpcResponse.success, Json.getField, List.find?]

/-- C9 counterexample: when the 10 s timeout fires mid-attempt, the bridge's connect
tool returns the timeout error while the in-flight guard entry for the id is still
present — the guard is not reset on the timeout path before the tool returns (the `?`
on the timeout `map_err` returns before any reset call). -/
theorem mcp_connect_timeout_counterexample :
    (executeToolConnect mgr0 1 true envOk).1 = Except.error "Connection timeout" ∧
    (1 : Int) ∈ (executeToolConnect mgr0 1 true envOk).2.connecting ∧
    ¬ ((executeToolConnect mgr0 1 true envOk).2.connecting = []) := by
  refine ⟨rfl, by decide, by decide⟩

/-- C9 (amended): the connect tool resets the connecting guard before every attempt, and
an attempt that completes (with success or error) within the timeout leaves the guard
empty; but on timeout the tool reports the timeout error *without* resetting the guard,
which still holds the in-flight entry — a subsequent bridge connect attempt is
nonetheless not rejected by the stale entry, because that next invocation starts with
its own reset, after which the guard no longer contains the id. -/
theorem doConnect_connecting (s : SocketManager) (connectionId : Int)
    (env : ConnectEnv) :
    (s.doConnect connectionId env).2.1.connecting = s.connecting :=
  (doConnect_frame s connectionId env).2.1

theorem mcp_connect_guard_amended_spec (s : SocketManager) (connectionId : Int)
    (env env2 : ConnectEnv) :
    (s.resetConnectingFlag.connecting = []) ∧
    ((executeToolConnect s connectionId false env).2.connecting = []) ∧
    ((executeToolConnect s connectionId true env).1
        = Except.error "Connection timeout") ∧
    ((executeToolConnect s connectionId true env).2.connecting = [connectionId]) ∧
    (connectionId ∉
      ((executeToolConnect s connectionId true env).2.resetConnectingFlag).connecting) ∧
    ((executeToolConnect (executeToolConnect s connectionId true env).2 connectionId
        false env2).2.connecting = []) := by
  have hinner : ∀ (t : SocketManager) (envx : ConnectEnv),
      ((t.resetConnectingFlag).connect connectionId envx).2.1.connecting = [] := by
    intro t envx
    simp only [SocketManager.connect]
    rw [if_neg (by simp [SocketManager.resetConnectingFlag])]
    simp [doConnect_connecting, SocketManager.resetConnectingFlag, listSetInsert,
      listSetRemove]
  have hgen : ∀ (t : SocketManager) (envx : ConnectEnv),
      (executeToolConnect t connectionId false envx).2.connecting = [] := by
    intro t envx
    simp only [executeToolConnect]
    cases hr : ((t.resetConnectingFlag).connect connectionId envx).1 with
    | ok u => simp [hr, hinner t envx]
    | error e => simp [hr, SocketManager.resetConnectingFlag]
  refine ⟨rfl, hgen s env, rfl, ?_, ?_, hgen _ env2⟩
  · simp [executeToolConnect, SocketManager.resetConnectingFlag, listSetInsert]
  · simp [executeToolConnect, SocketManager.resetConnectingFlag, listSetInsert]

/-- C10 counterexample: a successful `connect(1)` on the empty manager changes the
active connection id from `none` to `some 1` (`do_connect` calls
`set_active_connection` on success), refuting the claim that connect never changes
which id is marked active. -/
theorem active_id_counterexample :
    mgr0.activeConnectionId = none ∧
    (mgr0.connect 1 envOk).1 = Except.ok () ∧
    (mgr0.connect 1 envOk).2.1.activeConnectionId = some 1 ∧
    (mgr0.connect 1 envOk).2.1.activeConnectionId ≠ mgr0.activeConnectionId := by
  refine ⟨rfl, rfl, by decide, by decide⟩

/-- C10 (amended): `disconnect` and the other operations (emit, listener edits) never
change the active connection id, and the explicit set/clear operations do set and clear
it; but a *successful* `connect(id)` also sets the active id to `id`, so the field is
not modified only by the explicit operations. A failed connect leaves it unchanged. -/
theorem active_id_frame_amended_spec (s : SocketManager) (connectionId j : Int)
    (env : ConnectEnv) (reason ts eventName payload : String) (d res : Except String Unit) :
    ((s.disconnectInner connectionId reason ts d).2.1.activeConnectionId
        = s.activeConnectionId) ∧
    (∀ e, (s.connect connectionId env).1 = Except.error e →
      (s.connect connectionId env).2.1.activeConnectionId = s.activeConnectionId) ∧
    ((s.connect connectionId env).1 = Except.ok () →
      (s.connect connectionId env).2.1.activeConnectionId = some connectionId) ∧
    ((s.emitMessage connectionId eventName payload res ts).2.1.activeConnectionId
        = s.activeConnectionId) ∧
    ((s.addListener connectionId eventName).2.activeConnectionId
        = s.activeConnectionId) ∧
    ((s.removeListener connectionId eventName).activeConnectionId
        = s.activeConnectionId) ∧
    ((s.setActiveConnection j).activeConnectionId = some j) ∧
    (s.clearActiveConnection.activeConnectionId = none) := by
  refine ⟨?_, ?_, ?_, ?_, ?_, rfl, rfl, rfl⟩
  · cases hcl : (mapFind s.connections connectionId).bind (fun st => st.client) with
    | none => simp [SocketManager.disconnectInner, mapRemove, hcl]
    | some c =>
      cases d with
      | ok u => simp [SocketManager.disconnectInner, mapRemove, hcl]
      | error e => simp [SocketManager.disconnectInner, mapRemove, hcl]
  · intro e he
    by_cases h : connectionId ∈ s.connecting
    · simp [SocketManager.connect, h]
    · simp only [SocketManager.connect, if_neg h] at he ⊢
      exact (doConnect_frame _ connectionId env).2.2.2 e he
  · intro hok
    by_cases h : connectionId ∈ s.connecting
    · rw [SocketManager.connect] at hok
      rw [if_pos h] at hok
      cases hok
    · simp only [SocketManager.connect, if_neg h] at hok ⊢
      exact (doConnect_frame _ connectionId env).2.2.1 hok
  · cases hcl : s.lookupClient connectionId with
    | none => simp [SocketManager.emitMessage, hcl]
    | some c =>
      cases res with
      | error e => simp [SocketManager.emitMessage, hcl]
      | ok u =>
        simp [SocketManager.emitMessage, hcl, SocketManager.emitOutgoingEvent,
          SocketManager.recordEvent]
  · by_cases h : eventName.trim.isEmpty
    · simp [SocketManager.addListener, h]
    · simp [SocketManager.addListener, h]

/-- Witness for C10 (amended): a failed connect leaves the active id unchanged, a
successful one sets it. -/
theorem active_id_frame_amended_spec_witness :
    (mgr0.connect 1 envFail).1 = Except.error "dial error" ∧
    (mgr0.connect 1 envFail).2.1.activeConnectionId = mgr0.activeConnectionId ∧
    (mgr0.connect 1 envOk).1 = Except.ok () ∧
    (mgr0.connect 1 envOk).2.1.activeConnectionId = some 1 :=
  ⟨rfl,
    (active_id_frame_amended_spec mgr0 1 1 envFail "r" "t" "e" "p" (Except.ok ())
      (Except.ok ())).2.1 "dial error" rfl,
    rfl,
    (active_id_frame_amended_spec mgr0 1 1 envOk "r" "t" "e" "p" (Except.ok ())
      (Except.ok ())).2.2.1 rfl⟩
